import Mathlib

/-!
Verification of the `code_signing` module of `rust-security-framework`
(`src/security-framework/src/os/macos/code_signing.rs`).

The module is a thin binding over the macOS code-signing service.  We embed
it shallowly:

* `Flags` mirrors the `bitflags!`-generated bit-set over `u32`.
* `GuestAttributes` mirrors the mutable `CFMutableDictionary` bag.  The
  Rust setters call `CFMutableDictionary::add`, which is Apple's
  `CFDictionaryAddValue`: the pair is added only when the key is not
  already present (it never replaces an existing entry).  We model the
  dictionary as an association list and `add` with exactly that semantics.
* Every FFI entry point of the Security framework is a field of an `OS`
  oracle structure; a wrapper mirrors its Rust source line by line, records
  the exact arguments it marshals to the OS as a trace of `OSCall` values,
  and converts the returned status with `cvt`.
* The `MaybeUninit` output slot of a "create" call is modelled as an
  `Option`: the oracle reports the slot content after the call, and the
  wrapper reads it (the `assume_init`) only in the success branch, so a
  result `Except.ok none` would correspond to observing uninitialized
  memory.
-/

set_option autoImplicit false

namespace CodeSigning

/-- Signed 32-bit OS status code (`OSStatus`); zero means success. -/
abbrev OSStatus := Int

/-- Modelled from the spec: `crate::cvt` (declared outside this module) turns
an OS status into a `Result`: zero means success and any nonzero value is
surfaced verbatim as a single error carrying that signed numeric status code,
unmodified, with no reinterpretation, retry, or local recovery. -/
def cvt (status : OSStatus) : Except OSStatus Unit :=
  if status = 0 then .ok () else .error status

/-! ## Flags

`bitflags::bitflags!` generates a transparent wrapper around a `u32` field
`bits`.  `|` is bitwise or of the bits, and `contains` is
`self.bits & other.bits == other.bits`.  `impl Default for Flags` returns
`Self::NONE`. -/

/-- The `Flags` bit-set of code-signing validation options (a `u32`). -/
structure Flags where
  bits : Nat
deriving DecidableEq

/-- `Flags::NONE`: use the default behaviour (all bits zero). -/
def Flags.NONE : Flags := ⟨0⟩

/-- `impl Default for Flags { fn default() -> Self { Self::NONE } }`. -/
def Flags.default : Flags := Flags.NONE

/-- The `BitOr` implementation generated by `bitflags!`: bitwise or. -/
def Flags.union (f g : Flags) : Flags := ⟨f.bits ||| g.bits⟩

/-- The `contains` method generated by `bitflags!`:
`self.bits & other.bits == other.bits`. -/
def Flags.contains (f g : Flags) : Bool := f.bits &&& g.bits == g.bits

/-! ## GuestAttributes

The bag is a `CFMutableDictionary`.  Keys are the fixed `CFString`
constants `kSecGuestAttributeAudit` and `kSecGuestAttributePid`, or an
arbitrary caller-supplied `CFStringRef` (`set_other`).  Values are a
`CFDataRef` blob, a `CFNumber` built from a `pid_t`, or an arbitrary
`ToVoid` value, modelled as a tagged union. -/

/-- A guest-attribute key: one of the two fixed `CFString` constants or an
arbitrary caller-supplied `CFStringRef`. -/
inductive GKey where
  | auditToken
  | pid
  | other (key : String)
deriving DecidableEq, Repr

/-- A guest-attribute value: a `CFDataRef` binary blob, a `CFNumber` made
from a `pid_t`, or an arbitrary `ToVoid` value (an opaque pointer). -/
inductive GValue where
  | data (bytes : List Nat)
  | number (n : Int)
  | voidPtr (p : Nat)
deriving DecidableEq, Repr

/-- The contents of a `CFMutableDictionary`, as an association list in
insertion order. -/
abbrev CFDict := List (GKey × GValue)

/-- Whether the dictionary already holds an entry for `k`. -/
def CFDict.hasKey (d : CFDict) (k : GKey) : Bool :=
  d.any fun p => p.1 == k

/-- `CFMutableDictionary::add`, i.e. Apple's `CFDictionaryAddValue`: adds the
key/value pair only if the key is not already present in the dictionary;
otherwise the dictionary is left unchanged. -/
def CFDict.add (d : CFDict) (k : GKey) (v : GValue) : CFDict :=
  if d.hasKey k then d else d ++ [(k, v)]

/-- The value stored under `k`, if any. -/
def CFDict.lookup (d : CFDict) (k : GKey) : Option GValue :=
  (d.find? fun p => p.1 == k).map Prod.snd

/-- `GuestAttributes`: a helper holding a mutable `CFMutableDictionary`. -/
structure GuestAttributes where
  inner : CFDict
deriving DecidableEq, Repr

/-- `set_audit_token`: `self.inner.add(kSecGuestAttributeAudit, token)`. -/
def GuestAttributes.set_audit_token (a : GuestAttributes) (token : List Nat) :
    GuestAttributes :=
  ⟨a.inner.add .auditToken (.data token)⟩

/-- `set_pid`: `self.inner.add(kSecGuestAttributePid, CFNumber::from(pid))`. -/
def GuestAttributes.set_pid (a : GuestAttributes) (pid : Int) :
    GuestAttributes :=
  ⟨a.inner.add .pid (.number pid)⟩

/-- `set_other`: `self.inner.add(key, value.to_void())`. -/
def GuestAttributes.set_other (a : GuestAttributes) (key : String) (value : Nat) :
    GuestAttributes :=
  ⟨a.inner.add (.other key) (.voidPtr value)⟩

/-! ## Handle types

`declare_TCFType!` makes each handle a transparent wrapper around a raw
Core Foundation reference; we model a raw reference as a `Nat`. -/

/-- `SecRequirement`: opaque handle to a compiled code requirement. -/
structure SecRequirement where
  ref : Nat
deriving DecidableEq, Repr

/-- `SecCode`: opaque handle to signed code running on the system. -/
structure SecCode where
  ref : Nat
deriving DecidableEq, Repr

/-- `SecStaticCode`: opaque handle to signed code on disk. -/
structure SecStaticCode where
  ref : Nat
deriving DecidableEq, Repr

/-- A `CFURL`, identified by its filesystem path. -/
structure CFURL where
  path : String
deriving DecidableEq, Repr

/-! ## The OS boundary

Each Security-framework FFI entry point used by the module is a field of
the `OS` oracle.  A function with a `MaybeUninit` out parameter returns,
besides its `OSStatus`, the content of the output slot after the call:
`none` models a slot the OS left uninitialized.  A null pointer argument
is modelled as `none` of an `Option`. -/

/-- An oracle describing the OS responses to the seven FFI entry points the
module invokes.  Argument lists mirror the C signatures exactly (minus the
out-pointer, whose post-call content is returned instead). -/
structure OS where
  SecRequirementCreateWithString : String → Nat → OSStatus × Option Nat
  SecCodeCopySelf : Nat → OSStatus × Option Nat
  SecCodeCheckValidity : Nat → Nat → Nat → OSStatus
  SecCodeCopyGuestWithAttributes : Option Nat → CFDict → Nat → OSStatus × Option Nat
  SecCodeCopyPath : Nat → Nat → OSStatus × Option String
  SecStaticCodeCreateWithPath : String → Nat → OSStatus × Option Nat
  SecStaticCodeCheckValidity : Nat → Nat → Nat → OSStatus

/-- A record of one FFI call and the exact arguments marshalled to it. -/
inductive OSCall where
  | requirementCreateWithString (text : String) (flags : Nat)
  | codeCopySelf (flags : Nat)
  | codeCheckValidity (code : Nat) (flags : Nat) (requirement : Nat)
  | codeCopyGuestWithAttributes (host : Option Nat) (attrs : CFDict) (flags : Nat)
  | codeCopyPath (code : Nat) (flags : Nat)
  | staticCodeCreateWithPath (path : String) (flags : Nat)
  | staticCodeCheckValidity (code : Nat) (flags : Nat) (requirement : Nat)
deriving DecidableEq, Repr

/-! ## The wrappers

Each definition mirrors its Rust source: build the arguments, invoke the
OS entry point, convert the status with `cvt`, and read the output slot
(`assume_init`) only in the success branch.  Alongside its result, every
wrapper returns the trace of OS calls it made. -/

/-- `impl FromStr for SecRequirement`: wraps `s` in a `CFString` and calls
`SecRequirementCreateWithString(text, 0, &mut requirement)`; note the flags
argument is the literal `0`. -/
def SecRequirement.from_str (os : OS) (s : String) :
    Except OSStatus (Option SecRequirement) × List OSCall :=
  let text := s
  let (status, requirement) := os.SecRequirementCreateWithString text 0
  let trace := [OSCall.requirementCreateWithString text 0]
  match cvt status with
  | .error e => (.error e, trace)
  | .ok _ => (.ok (requirement.map SecRequirement.mk), trace)

/-- `SecCode::for_self`: calls `SecCodeCopySelf(flags.bits(), &mut code)`. -/
def SecCode.for_self (os : OS) (flags : Flags) :
    Except OSStatus (Option SecCode) × List OSCall :=
  let (status, code) := os.SecCodeCopySelf flags.bits
  let trace := [OSCall.codeCopySelf flags.bits]
  match cvt status with
  | .error e => (.error e, trace)
  | .ok _ => (.ok (code.map SecCode.mk), trace)

/-- `SecCode::check_validity`: calls
`SecCodeCheckValidity(self, flags.bits(), requirement)`. -/
def SecCode.check_validity (os : OS) (self : SecCode) (flags : Flags)
    (requirement : SecRequirement) : Except OSStatus Unit × List OSCall :=
  (cvt (os.SecCodeCheckValidity self.ref flags.bits requirement.ref),
    [OSCall.codeCheckValidity self.ref flags.bits requirement.ref])

/-- `SecCode::copy_guest_with_attribues`: computes the host reference
(`null_mut` when `host` is `None`) and calls
`SecCodeCopyGuestWithAttributes(host, attrs.inner, flags.bits(), &mut code)`. -/
def SecCode.copy_guest_with_attribues (os : OS) (host : Option SecCode)
    (attrs : GuestAttributes) (flags : Flags) :
    Except OSStatus (Option SecCode) × List OSCall :=
  let hostRef : Option Nat :=
    match host with
    | some h => some h.ref
    | none => none
  let (status, code) :=
    os.SecCodeCopyGuestWithAttributes hostRef attrs.inner flags.bits
  let trace := [OSCall.codeCopyGuestWithAttributes hostRef attrs.inner flags.bits]
  match cvt status with
  | .error e => (.error e, trace)
  | .ok _ => (.ok (code.map SecCode.mk), trace)

/-- `SecCode::path`: calls `SecCodeCopyPath(self, flags.bits(), &mut url)`. -/
def SecCode.path (os : OS) (self : SecCode) (flags : Flags) :
    Except OSStatus (Option CFURL) × List OSCall :=
  let (status, url) := os.SecCodeCopyPath self.ref flags.bits
  let trace := [OSCall.codeCopyPath self.ref flags.bits]
  match cvt status with
  | .error e => (.error e, trace)
  | .ok _ => (.ok (url.map CFURL.mk), trace)

/-- `SecStaticCode::from_path`: calls
`SecStaticCodeCreateWithPath(path, flags.bits(), &mut code)`. -/
def SecStaticCode.from_path (os : OS) (path : CFURL) (flags : Flags) :
    Except OSStatus (Option SecStaticCode) × List OSCall :=
  let (status, code) := os.SecStaticCodeCreateWithPath path.path flags.bits
  let trace := [OSCall.staticCodeCreateWithPath path.path flags.bits]
  match cvt status with
  | .error e => (.error e, trace)
  | .ok _ => (.ok (code.map SecStaticCode.mk), trace)

/-- `SecStaticCode::path`: calls
`SecCodeCopyPath(self, flags.bits(), &mut url)` (the docs allow passing a
`SecStaticCodeRef` where a `SecCodeRef` is expected). -/
def SecStaticCode.path (os : OS) (self : SecStaticCode) (flags : Flags) :
    Except OSStatus (Option CFURL) × List OSCall :=
  let (status, url) := os.SecCodeCopyPath self.ref flags.bits
  let trace := [OSCall.codeCopyPath self.ref flags.bits]
  match cvt status with
  | .error e => (.error e, trace)
  | .ok _ => (.ok (url.map CFURL.mk), trace)

/-- `SecStaticCode::check_validity`: calls
`SecStaticCodeCheckValidity(self, flags.bits(), requirement)`. -/
def SecStaticCode.check_validity (os : OS) (self : SecStaticCode)
    (flags : Flags) (requirement : SecRequirement) :
    Except OSStatus Unit × List OSCall :=
  (cvt (os.SecStaticCodeCheckValidity self.ref flags.bits requirement.ref),
    [OSCall.staticCodeCheckValidity self.ref flags.bits requirement.ref])

/-! ## A stateful model of the OS service

The round-trip and purity claims are about the behaviour of the OS service
itself, which lives outside this repository.  We model the service state
from the spec and give the wrappers a state-passing semantics against it. -/

/-- Modelled from the spec: the state of the OS code-signing service, which
is external to the repository.  Static code objects are OS-resident records
mapping a handle reference to the canonical on-disk location of the code
(spec: a StaticCode "is created directly from a filesystem path and can
likewise be converted back to its path"; `path` "returns the canonical
on-disk location of this static code object").  The trust engine's validity
verdicts are OS-owned functions of the marshalled (code, flags, requirement)
triple; evaluating a verdict mutates nothing (spec: "check_validity is a
pure query with no effect on handle state").  `createStatus` gives the
OS-defined status of creating a static code object for a path (zero on
success; the failure taxonomy is owned by the OS). -/
structure OSState where
  staticCodes : List (Nat × String)
  nextRef : Nat
  createStatus : String → Nat → OSStatus
  dynamicVerdict : Nat → Nat → Nat → OSStatus
  staticVerdict : Nat → Nat → Nat → OSStatus

/-- Modelled from the spec: `SecStaticCodeCreateWithPath` "creates a static
code object for the file at the given path"; on success the output slot
holds a fresh handle recorded against that path, on failure the state is
unchanged and the slot stays uninitialized. -/
def OSState.staticCodeCreateWithPath (st : OSState) (path : String)
    (flags : Nat) : OSState × OSStatus × Option Nat :=
  let status := st.createStatus path flags
  if status = 0 then
    ({ st with
        staticCodes := st.staticCodes ++ [(st.nextRef, path)]
        nextRef := st.nextRef + 1 },
      0, some st.nextRef)
  else
    (st, status, none)

/-- Modelled from the spec: `SecCodeCopyPath` "returns the on-disk location
backing this code object" and fails (with an OS-defined nonzero status,
here represented by -67071) when the reference designates no recorded
object. -/
def OSState.codeCopyPath (st : OSState) (code : Nat) (flags : Nat) :
    OSState × OSStatus × Option String :=
  let _ := flags
  match st.staticCodes.find? fun p => p.1 == code with
  | some p => (st, 0, some p.2)
  | none => (st, -67071, none)

/-- Modelled from the spec: `SecCodeCheckValidity` asks the trust engine for
its verdict on the triple; the state is untouched. -/
def OSState.codeCheckValidity (st : OSState) (code flags requirement : Nat) :
    OSState × OSStatus :=
  (st, st.dynamicVerdict code flags requirement)

/-- Modelled from the spec: `SecStaticCodeCheckValidity` asks the trust
engine for its verdict on the triple; the state is untouched. -/
def OSState.staticCodeCheckValidity (st : OSState)
    (code flags requirement : Nat) : OSState × OSStatus :=
  (st, st.staticVerdict code flags requirement)

/-- `SecStaticCode::from_path` run against the stateful OS model: the same
Rust body as `SecStaticCode.from_path`, with the OS call threading the
service state. -/
def SecStaticCode.from_path_st (st : OSState) (path : CFURL) (flags : Flags) :
    OSState × Except OSStatus (Option SecStaticCode) :=
  let (st, status, code) := st.staticCodeCreateWithPath path.path flags.bits
  match cvt status with
  | .error e => (st, .error e)
  | .ok _ => (st, .ok (code.map SecStaticCode.mk))

/-- `SecStaticCode::path` run against the stateful OS model. -/
def SecStaticCode.path_st (st : OSState) (self : SecStaticCode)
    (flags : Flags) : OSState × Except OSStatus (Option CFURL) :=
  let (st, status, url) := st.codeCopyPath self.ref flags.bits
  match cvt status with
  | .error e => (st, .error e)
  | .ok _ => (st, .ok (url.map CFURL.mk))

/-- `SecCode::check_validity` run against the stateful OS model. -/
def SecCode.check_validity_st (st : OSState) (self : SecCode) (flags : Flags)
    (requirement : SecRequirement) : OSState × Except OSStatus Unit :=
  let (st, status) :=
    st.codeCheckValidity self.ref flags.bits requirement.ref
  (st, cvt status)

/-- `SecStaticCode::check_validity` run against the stateful OS model. -/
def SecStaticCode.check_validity_st (st : OSState) (self : SecStaticCode)
    (flags : Flags) (requirement : SecRequirement) :
    OSState × Except OSStatus Unit :=
  let (st, status) :=
    st.staticCodeCheckValidity self.ref flags.bits requirement.ref
  (st, cvt status)

/-! ## Concrete instances used to witness the theorems -/

/-- A concrete OS oracle: every call succeeds and every output slot holds
the reference `1` (or the path of `/bin/bash`). -/
def osOk : OS where
  SecRequirementCreateWithString := fun _ _ => (0, some 1)
  SecCodeCopySelf := fun _ => (0, some 1)
  SecCodeCheckValidity := fun _ _ _ => 0
  SecCodeCopyGuestWithAttributes := fun _ _ _ => (0, some 1)
  SecCodeCopyPath := fun _ _ => (0, some "/bin/bash")
  SecStaticCodeCreateWithPath := fun _ _ => (0, some 1)
  SecStaticCodeCheckValidity := fun _ _ _ => 0

/-- A concrete initial OS service state with no static code objects. -/
def osSt0 : OSState where
  staticCodes := []
  nextRef := 0
  createStatus := fun _ _ => 0
  dynamicVerdict := fun _ _ _ => 0
  staticVerdict := fun _ _ _ => 0

/-! ## Dictionary lemmas -/

/-- Looking up in an appended dictionary: the left part wins when it holds
the key. -/
theorem CFDict.lookup_append (d t : CFDict) (k : GKey) :
    (d ++ t).lookup k = (d.lookup k).or (t.lookup k) := by
  unfold CFDict.lookup
  rw [List.find?_append]
  cases d.find? fun p => p.1 == k <;> simp

/-- `hasKey` agrees with `lookup` being defined. -/
theorem CFDict.hasKey_eq (d : CFDict) (k : GKey) :
    d.hasKey k = (d.lookup k).isSome := by
  rw [Bool.eq_iff_iff]
  simp [CFDict.hasKey, CFDict.lookup]

/-- `add` appends at most one entry and never drops or edits the front. -/
theorem CFDict.add_append (d : CFDict) (k : GKey) (v : GValue) :
    ∃ t, CFDict.add d k v = d ++ t ∧ t.length ≤ 1 := by
  unfold CFDict.add
  by_cases h : d.hasKey k
  · exact ⟨[], by simp [h]⟩
  · exact ⟨[(k, v)], by simp [h]⟩

/-- A stored value survives appending further entries. -/
theorem CFDict.lookup_mono (d t : CFDict) (k : GKey) (v : GValue)
    (h : d.lookup k = some v) : (d ++ t).lookup k = some v := by
  rw [CFDict.lookup_append, h, Option.or_some]

/-- After `add d k v`, the key `k` is bound: to its old value when it was
already present, to `v` otherwise. -/
theorem CFDict.lookup_add_self (d : CFDict) (k : GKey) (v : GValue) :
    (CFDict.add d k v).lookup k = some ((d.lookup k).getD v) := by
  unfold CFDict.add
  by_cases h : d.hasKey k
  · rw [CFDict.hasKey_eq] at h
    obtain ⟨w, hw⟩ := Option.isSome_iff_exists.mp h
    simp [h, CFDict.hasKey_eq, CFDict.lookup_append, hw]
  · rw [CFDict.hasKey_eq, Bool.not_eq_true, Option.not_isSome,
      Option.isNone_iff_eq_none] at h
    rw [CFDict.hasKey_eq, h]
    show (d ++ [(k, v)]).lookup k = some (Option.getD none v)
    rw [CFDict.lookup_append, h, Option.none_or]
    simp [CFDict.lookup]

/-- `add` leaves every existing binding in place. -/
theorem CFDict.lookup_add_mono (d : CFDict) (k k' : GKey) (v v' : GValue)
    (h : d.lookup k' = some v') : (CFDict.add d k v).lookup k' = some v' := by
  obtain ⟨t, ht, -⟩ := CFDict.add_append d k v
  rw [ht]
  exact CFDict.lookup_mono d t k' v' h

/-! ## Claim theorems -/

/-- C1 counterexample: starting from an empty bag, `set_audit_token [1]`
followed by `set_audit_token [2]` does not leave `[2]` under the audit-token
key — `CFMutableDictionary::add` (Apple's `CFDictionaryAddValue`) adds only
when the key is absent, so the first value `[1]` survives. -/
theorem C1_set_audit_token_overwrite_cex :
    ¬ ((((GuestAttributes.mk []).set_audit_token [1]).set_audit_token [2]).inner.lookup
        GKey.auditToken = some (GValue.data [2])) := by
  decide

/-- C1 (amended): for every GuestAttributes bag and every pair of
audit-token values t1, t2, calling `set_audit_token t1` and then
`set_audit_token t2` leaves the FIRST value stored under the fixed
audit-token key: a value already present is kept (so the key maps to the
bag's prior value if it had one, else to t1, never to t2 in those cases),
because each setter adds its pair only when the key is not yet present. -/
theorem C1_set_audit_token_first_value_persists (a : GuestAttributes)
    (t1 t2 : List Nat) :
    ((a.set_audit_token t1).set_audit_token t2).inner.lookup GKey.auditToken
      = some ((a.inner.lookup GKey.auditToken).getD (GValue.data t1)) := by
  show (CFDict.add (CFDict.add a.inner GKey.auditToken (GValue.data t1))
      GKey.auditToken (GValue.data t2)).lookup GKey.auditToken = _
  rw [CFDict.lookup_add_self, CFDict.lookup_add_self]
  simp

/-- C9: `Flags::default()` is the all-zero `NONE` value, and the union of
any two flags values contains each operand, each membership test holding
independently of the other. -/
theorem C9_flags_default_union_contains :
    Flags.default = Flags.NONE ∧
      ∀ f g : Flags, (f.union g).contains f = true ∧ (f.union g).contains g = true := by
  refine ⟨rfl, fun f g => ⟨?_, ?_⟩⟩ <;>
  · simp only [Flags.union, Flags.contains, beq_iff_eq]
    apply Nat.eq_of_testBit_eq
    intro i
    simp only [Nat.testBit_and, Nat.testBit_or]
    cases f.bits.testBit i <;> cases g.bits.testBit i <;> rfl

/-- C10: every GuestAttributes setter only grows the mapping — it appends
at most one new entry and never removes or replaces one already present, so
a key's first stored value persists. -/
theorem C10_guest_attributes_grow_only (a : GuestAttributes) (token : List Nat)
    (pid : Int) (key : String) (value : Nat) (b : GuestAttributes)
    (hb : b = a.set_audit_token token ∨ b = a.set_pid pid ∨
      b = a.set_other key value) :
    (∃ t, b.inner = a.inner ++ t ∧ t.length ≤ 1) ∧
      ∀ k v, a.inner.lookup k = some v → b.inner.lookup k = some v := by
  rcases hb with h | h | h <;> subst h <;>
    exact ⟨CFDict.add_append _ _ _, fun k v hv => CFDict.lookup_add_mono _ _ _ _ _ hv⟩

/-- Witness for C10: the `set_pid` setter applied to a bag already holding
a pid entry. -/
theorem C10_guest_attributes_grow_only_witness :
    (∃ t, ((GuestAttributes.mk [(GKey.pid, GValue.number 3)]).set_pid 7).inner
        = [(GKey.pid, GValue.number 3)] ++ t ∧ t.length ≤ 1) ∧
      ∀ k v, CFDict.lookup [(GKey.pid, GValue.number 3)] k = some v →
        ((GuestAttributes.mk [(GKey.pid, GValue.number 3)]).set_pid 7).inner.lookup k
          = some v :=
  C10_guest_attributes_grow_only ⟨[(GKey.pid, GValue.number 3)]⟩ [] 7 "" 0 _
    (Or.inr (Or.inl rfl))

/-- C2 counterexample: `SecRequirement::from_str` is an operation of the
module, yet it takes no Flags parameter and marshals the literal flag bits
`0` to `SecRequirementCreateWithString`; in particular a caller holding
`Flags` with bits 1 cannot have them forwarded. -/
theorem C2_from_str_flags_cex :
    (SecRequirement.from_str osOk "anchor apple").2
        = [OSCall.requirementCreateWithString "anchor apple" 0] ∧
      ¬ (SecRequirement.from_str osOk "anchor apple").2
          = [OSCall.requirementCreateWithString "anchor apple" (Flags.mk 1).bits] := by
  constructor
  · rfl
  · decide

/-- C2 (amended): every operation that takes a Flags parameter marshals
exactly the caller-supplied flag bits to its OS call; `from_str`, however,
takes no Flags parameter and always marshals the constant `0`. -/
theorem C2_flags_forwarding (os : OS) (s : String) (flags : Flags)
    (self : SecCode) (selfS : SecStaticCode) (req : SecRequirement)
    (host : Option SecCode) (attrs : GuestAttributes) (path : CFURL) :
    (SecRequirement.from_str os s).2 = [OSCall.requirementCreateWithString s 0] ∧
    (SecCode.for_self os flags).2 = [OSCall.codeCopySelf flags.bits] ∧
    (SecCode.check_validity os self flags req).2
        = [OSCall.codeCheckValidity self.ref flags.bits req.ref] ∧
    (SecCode.copy_guest_with_attribues os host attrs flags).2
        = [OSCall.codeCopyGuestWithAttributes (host.map SecCode.ref)
            attrs.inner flags.bits] ∧
    (SecCode.path os self flags).2 = [OSCall.codeCopyPath self.ref flags.bits] ∧
    (SecStaticCode.from_path os path flags).2
        = [OSCall.staticCodeCreateWithPath path.path flags.bits] ∧
    (SecStaticCode.path os selfS flags).2
        = [OSCall.codeCopyPath selfS.ref flags.bits] ∧
    (SecStaticCode.check_validity os selfS flags req).2
        = [OSCall.staticCodeCheckValidity selfS.ref flags.bits req.ref] := by
  refine ⟨?_, ?_, rfl, ?_, ?_, ?_, ?_, rfl⟩
  · by_cases h : (os.SecRequirementCreateWithString s 0).1 = 0 <;>
      simp [SecRequirement.from_str, cvt, h]
  · by_cases h : (os.SecCodeCopySelf flags.bits).1 = 0 <;>
      simp [SecCode.for_self, cvt, h]
  · cases host <;>
      (simp only [SecCode.copy_guest_with_attribues, cvt, Option.map];
        split <;> rfl)
  · by_cases h : (os.SecCodeCopyPath self.ref flags.bits).1 = 0 <;>
      simp [SecCode.path, cvt, h]
  · by_cases h : (os.SecStaticCodeCreateWithPath path.path flags.bits).1 = 0 <;>
      simp [SecStaticCode.from_path, cvt, h]
  · by_cases h : (os.SecCodeCopyPath selfS.ref flags.bits).1 = 0 <;>
      simp [SecStaticCode.path, cvt, h]

/-- C4: for every fallible operation, a zero OS status yields the valid
result and a nonzero status yields a single error carrying exactly that
status, unmodified — shown for the two cited operations (`check_validity`
in both flavours and `from_str`). -/
theorem C4_status_surfaced_verbatim (os : OS) (s : String) (self : SecCode)
    (selfS : SecStaticCode) (flags : Flags) (req : SecRequirement) :
    (SecCode.check_validity os self flags req).1
        = (if os.SecCodeCheckValidity self.ref flags.bits req.ref = 0
           then .ok ()
           else .error (os.SecCodeCheckValidity self.ref flags.bits req.ref)) ∧
    (SecStaticCode.check_validity os selfS flags req).1
        = (if os.SecStaticCodeCheckValidity selfS.ref flags.bits req.ref = 0
           then .ok ()
           else .error (os.SecStaticCodeCheckValidity selfS.ref flags.bits req.ref)) ∧
    (SecRequirement.from_str os s).1
        = (if (os.SecRequirementCreateWithString s 0).1 = 0
           then .ok ((os.SecRequirementCreateWithString s 0).2.map SecRequirement.mk)
           else .error (os.SecRequirementCreateWithString s 0).1) := by
  refine ⟨rfl, rfl, ?_⟩
  by_cases h : (os.SecRequirementCreateWithString s 0).1 = 0 <;>
    simp [SecRequirement.from_str, cvt, h]

/-- C8: `copy_guest_with_attribues` marshals the null host reference to the
OS guest lookup when `host` is `None` (so the system root of trust acts as
the host), and the concrete reference of `h` when `host` is `Some h`. -/
theorem C8_copy_guest_host_marshalling (os : OS) (attrs : GuestAttributes)
    (flags : Flags) (h : SecCode) :
    (SecCode.copy_guest_with_attribues os none attrs flags).2
        = [OSCall.codeCopyGuestWithAttributes none attrs.inner flags.bits] ∧
      (SecCode.copy_guest_with_attribues os (some h) attrs flags).2
        = [OSCall.codeCopyGuestWithAttributes (some h.ref) attrs.inner flags.bits] := by
  constructor <;>
    (simp only [SecCode.copy_guest_with_attribues, cvt];
      split <;> rfl)

/-- C3: under the FFI contract that a zero status means the OS filled the
output slot, every create operation either returns a fully constructed
handle (the slot is read only in the success branch) or returns the OS's
nonzero error and no handle; an `ok none` — a partially initialized
handle — is never produced. -/
theorem C3_create_atomic (os : OS) (s : String) (flags : Flags)
    (host : Option SecCode) (attrs : GuestAttributes) (path : CFURL)
    (hreq : ∀ text f, (os.SecRequirementCreateWithString text f).1 = 0 →
      ((os.SecRequirementCreateWithString text f).2).isSome)
    (hself : ∀ f, (os.SecCodeCopySelf f).1 = 0 → ((os.SecCodeCopySelf f).2).isSome)
    (hguest : ∀ h a f, (os.SecCodeCopyGuestWithAttributes h a f).1 = 0 →
      ((os.SecCodeCopyGuestWithAttributes h a f).2).isSome)
    (hstatic : ∀ p f, (os.SecStaticCodeCreateWithPath p f).1 = 0 →
      ((os.SecStaticCodeCreateWithPath p f).2).isSome) :
    ((∃ r, (SecRequirement.from_str os s).1 = .ok (some r)) ∨
      (∃ e, e ≠ 0 ∧ (SecRequirement.from_str os s).1 = .error e)) ∧
    ((∃ c, (SecCode.for_self os flags).1 = .ok (some c)) ∨
      (∃ e, e ≠ 0 ∧ (SecCode.for_self os flags).1 = .error e)) ∧
    ((∃ c, (SecCode.copy_guest_with_attribues os host attrs flags).1 = .ok (some c)) ∨
      (∃ e, e ≠ 0 ∧
        (SecCode.copy_guest_with_attribues os host attrs flags).1 = .error e)) ∧
    ((∃ c, (SecStaticCode.from_path os path flags).1 = .ok (some c)) ∨
      (∃ e, e ≠ 0 ∧ (SecStaticCode.from_path os path flags).1 = .error e)) := by
  refine ⟨?_, ?_, ?_, ?_⟩
  · by_cases h : (os.SecRequirementCreateWithString s 0).1 = 0
    · obtain ⟨r, hr⟩ := Option.isSome_iff_exists.mp (hreq s 0 h)
      exact Or.inl ⟨SecRequirement.mk r, by simp [SecRequirement.from_str, cvt, h, hr]⟩
    · exact Or.inr ⟨_, h, by simp [SecRequirement.from_str, cvt, h]⟩
  · by_cases h : (os.SecCodeCopySelf flags.bits).1 = 0
    · obtain ⟨r, hr⟩ := Option.isSome_iff_exists.mp (hself flags.bits h)
      exact Or.inl ⟨SecCode.mk r, by simp [SecCode.for_self, cvt, h, hr]⟩
    · exact Or.inr ⟨_, h, by simp [SecCode.for_self, cvt, h]⟩
  · by_cases h : (os.SecCodeCopyGuestWithAttributes (host.map SecCode.ref)
        attrs.inner flags.bits).1 = 0
    · obtain ⟨r, hr⟩ := Option.isSome_iff_exists.mp (hguest _ _ _ h)
      refine Or.inl ⟨SecCode.mk r, ?_⟩
      cases host <;> simp [SecCode.copy_guest_with_attribues, cvt, Option.map] at * <;>
        simp [h, hr]
    · refine Or.inr ⟨_, h, ?_⟩
      cases host <;> simp [SecCode.copy_guest_with_attribues, cvt, Option.map] at * <;>
        simp [h]
  · by_cases h : (os.SecStaticCodeCreateWithPath path.path flags.bits).1 = 0
    · obtain ⟨r, hr⟩ := Option.isSome_iff_exists.mp (hstatic _ _ h)
      exact Or.inl ⟨SecStaticCode.mk r, by simp [SecStaticCode.from_path, cvt, h, hr]⟩
    · exact Or.inr ⟨_, h, by simp [SecStaticCode.from_path, cvt, h]⟩

/-- Witness for C3: the always-succeeding oracle `osOk` honours the FFI
contract, and all four create operations return full handles on it. -/
theorem C3_create_atomic_witness :
    ((∃ r, (SecRequirement.from_str osOk "anchor apple").1 = .ok (some r)) ∨
      (∃ e, e ≠ 0 ∧ (SecRequirement.from_str osOk "anchor apple").1 = .error e)) ∧
    ((∃ c, (SecCode.for_self osOk Flags.NONE).1 = .ok (some c)) ∨
      (∃ e, e ≠ 0 ∧ (SecCode.for_self osOk Flags.NONE).1 = .error e)) ∧
    ((∃ c, (SecCode.copy_guest_with_attribues osOk none ⟨[]⟩ Flags.NONE).1
        = .ok (some c)) ∨
      (∃ e, e ≠ 0 ∧
        (SecCode.copy_guest_with_attribues osOk none ⟨[]⟩ Flags.NONE).1 = .error e)) ∧
    ((∃ c, (SecStaticCode.from_path osOk ⟨"/bin/bash"⟩ Flags.NONE).1 = .ok (some c)) ∨
      (∃ e, e ≠ 0 ∧
        (SecStaticCode.from_path osOk ⟨"/bin/bash"⟩ Flags.NONE).1 = .error e)) :=
  C3_create_atomic osOk "anchor apple" Flags.NONE none ⟨[]⟩ ⟨"/bin/bash"⟩
    (fun _ _ _ => rfl) (fun _ _ => rfl) (fun _ _ _ _ => rfl) (fun _ _ _ => rfl)

/-- C6: `SecStaticCode::check_validity` and `SecCode::check_validity` have
the identical contract: whenever the two OS entry points agree (as the same
verdict function `entry`), both wrappers marshal exactly the
(handle reference, flag bits, requirement reference) triple, convert the
status identically (via `cvt entry`), and return the same result — they
differ only in the entry point invoked. -/
theorem C6_check_validity_identical_contract (os os2 : OS)
    (entry : Nat → Nat → Nat → OSStatus)
    (h1 : os.SecCodeCheckValidity = entry)
    (h2 : os2.SecStaticCodeCheckValidity = entry)
    (c : SecCode) (cs : SecStaticCode) (hc : cs.ref = c.ref)
    (flags : Flags) (req : SecRequirement) :
    (SecCode.check_validity os c flags req).1
        = (SecStaticCode.check_validity os2 cs flags req).1 ∧
    (SecCode.check_validity os c flags req).1
        = cvt (entry c.ref flags.bits req.ref) ∧
    (SecCode.check_validity os c flags req).2
        = [OSCall.codeCheckValidity c.ref flags.bits req.ref] ∧
    (SecStaticCode.check_validity os2 cs flags req).2
        = [OSCall.staticCodeCheckValidity cs.ref flags.bits req.ref] := by
  refine ⟨?_, ?_, rfl, rfl⟩ <;>
    simp [SecCode.check_validity, SecStaticCode.check_validity, h1, h2, hc]

/-- Witness for C6: both check entry points of `osOk` equal the constant
verdict `0`, and the two wrappers agree on a pair of handles with the same
reference. -/
theorem C6_check_validity_identical_contract_witness :
    (SecCode.check_validity osOk ⟨5⟩ Flags.NONE ⟨9⟩).1
        = (SecStaticCode.check_validity osOk ⟨5⟩ Flags.NONE ⟨9⟩).1 ∧
    (SecCode.check_validity osOk ⟨5⟩ Flags.NONE ⟨9⟩).1
        = cvt ((fun _ _ _ => (0 : OSStatus)) 5 Flags.NONE.bits 9) ∧
    (SecCode.check_validity osOk ⟨5⟩ Flags.NONE ⟨9⟩).2
        = [OSCall.codeCheckValidity 5 Flags.NONE.bits 9] ∧
    (SecStaticCode.check_validity osOk ⟨5⟩ Flags.NONE ⟨9⟩).2
        = [OSCall.staticCodeCheckValidity 5 Flags.NONE.bits 9] :=
  C6_check_validity_identical_contract osOk osOk (fun _ _ _ => 0) rfl rfl
    ⟨5⟩ ⟨5⟩ rfl Flags.NONE ⟨9⟩

/-- C5: in the stateful OS model, whenever
`SecStaticCode::from_path(p, Flags::NONE)` succeeds with handle `c` (from a
service state whose recorded references do not collide with the fresh one),
querying `c.path(Flags::NONE)` returns the original path `p` unchanged. -/
theorem C5_static_code_path_round_trip (st : OSState) (p : CFURL)
    (c : SecStaticCode) (st2 : OSState)
    (hfresh : ∀ q ∈ st.staticCodes, q.1 ≠ st.nextRef)
    (h : SecStaticCode.from_path_st st p Flags.NONE = (st2, .ok (some c))) :
    (SecStaticCode.path_st st2 c Flags.NONE).2 = .ok (some p) := by
  unfold SecStaticCode.from_path_st OSState.staticCodeCreateWithPath at h
  by_cases hc : st.createStatus p.path Flags.NONE.bits = 0
  · simp only [hc, if_pos, cvt, if_true] at h
    obtain ⟨hst2, hc2⟩ := Prod.mk.injEq .. ▸ h
    rw [← hst2]
    have hcr : c.ref = st.nextRef := by
      cases c
      simp at hc2
      simp [hc2]
    unfold SecStaticCode.path_st OSState.codeCopyPath
    rw [hcr]
    have hnone : st.staticCodes.find? (fun q => q.1 == st.nextRef) = none :=
      List.find?_eq_none.mpr fun q hq => by
        simpa using hfresh q hq
    rw [List.find?_append, hnone, Option.none_or]
    simp [cvt]
  · simp [hc, cvt] at h

/-- Witness for C5: from the empty service state, creating a static code
object for `/bin/bash` and querying its path round-trips. -/
theorem C5_static_code_path_round_trip_witness :
    (SecStaticCode.path_st
        (SecStaticCode.from_path_st osSt0 ⟨"/bin/bash"⟩ Flags.NONE).1
        ⟨0⟩ Flags.NONE).2 = .ok (some ⟨"/bin/bash"⟩) :=
  C5_static_code_path_round_trip osSt0 ⟨"/bin/bash"⟩ ⟨0⟩ _
    (fun q hq => absurd hq (List.not_mem_nil q)) rfl

/-- C7: on the stateful OS model, `check_validity` (dynamic and static) is
a pure query: it returns the service state unchanged, so a repeated call
with the same arguments yields the same result, and any observation of the
handle (here its `path`) made after the check equals the one made before. -/
theorem C7_check_validity_pure (st : OSState) (c : SecCode)
    (cs : SecStaticCode) (flags : Flags) (req : SecRequirement) :
    (SecCode.check_validity_st st c flags req).1 = st ∧
    (SecStaticCode.check_validity_st st cs flags req).1 = st ∧
    (SecCode.check_validity_st (SecCode.check_validity_st st c flags req).1
        c flags req).2
      = (SecCode.check_validity_st st c flags req).2 ∧
    (SecStaticCode.check_validity_st
        (SecStaticCode.check_validity_st st cs flags req).1 cs flags req).2
      = (SecStaticCode.check_validity_st st cs flags req).2 ∧
    (SecStaticCode.path_st
        (SecStaticCode.check_validity_st st cs flags req).1 cs flags).2
      = (SecStaticCode.path_st st cs flags).2 :=
  ⟨rfl, rfl, rfl, rfl, rfl⟩

end CodeSigning
